import Mathlib

/-!
Shallow embedding of the WhatsApp bridge server (`server.js`, Home Assistant
add-on edition) for the rathlinus/homeassistant-whatsapp repository.

The embedding models, faithfully to the JavaScript source:
  * the mutable session state (`clientStatus`, `currentQrDataUrl`) and the
    lifecycle callbacks registered in `createClient`,
  * the WebSocket subscriber set `wsClients`, the `broadcast` fan-out
    function and the `wss.on("connection")` handler,
  * the Express route handlers `auth`, `GET /api/qr`, `POST /api/send`,
  * the message normalisation `buildMessagePayload`.
JavaScript strings are Lean `String`s; JavaScript truthiness on possibly
absent strings is made explicit (`truthy`); a JS `Set` of connection
objects is a duplicate-free list keyed by the connection handle's id.
-/

namespace Bridge

/-- JS truthiness of a possibly-absent string value (`undefined`/`null`
map to `none`; the empty string is falsy). -/
def truthy : Option String → Bool
  | none => false
  | some s => s ≠ ""

/-- ASCII whitespace matched by the JS regex class `\s` and removed by
`String.prototype.trim` (HTTP header values are ASCII, so the non-ASCII
members of `\s` cannot occur). -/
def jsWhitespace (c : Char) : Bool :=
  c = ' ' ∨ c = '\t' ∨ c = '\n' ∨ c = '\x0b' ∨ c = '\x0c' ∨ c = '\r'

/-- `String.prototype.trim`: drop leading and trailing whitespace. -/
def trimChars (cs : List Char) : List Char :=
  ((cs.dropWhile jsWhitespace).reverse.dropWhile jsWhitespace).reverse

/-- JS `/\D/g` removal, i.e. keep exactly the decimal digits `[0-9]`. -/
def keepDigits (cs : List Char) : List Char :=
  cs.filter Char.isDigit

/-- `suf` is a suffix of `s` (JS `String.prototype.endsWith`). -/
def endsWithStr (s suf : String) : Bool :=
  suf.data.isSuffixOf s.data

/-- `s.includes(c)` for a single-character needle. -/
def includesChar (s : String) (c : Char) : Bool :=
  s.data.contains c

-- ── Session state ────────────────────────────────────────────────────────────

/-- The `clientStatus` global:
`DISCONNECTED | INITIALIZING | QR_READY | AUTHENTICATED | READY | AUTH_FAILURE`. -/
inductive ClientStatus
  | DISCONNECTED
  | INITIALIZING
  | QR_READY
  | AUTHENTICATED
  | READY
  | AUTH_FAILURE
deriving DecidableEq, Repr

/-- The two mutable session globals of `server.js`:
`currentQrDataUrl` (a data-URI string or `null`) and `clientStatus`. -/
structure SessionState where
  currentQrDataUrl : Option String
  clientStatus : ClientStatus
deriving DecidableEq, Repr

-- ── Normalised message payloads (buildMessagePayload) ────────────────────────

/-- The fields of a `whatsapp-web.js` `Message` object that
`buildMessagePayload` reads (`msg.id._serialized` is flattened to `id`). -/
structure WaMessage where
  id : String
  «from» : String
  «to» : String
  body : String
  type : String
  timestamp : Nat
  fromMe : Bool
  hasMedia : Bool
  hasQuotedMsg : Bool
deriving DecidableEq, Repr

/-- The fields of a `whatsapp-web.js` `Contact` that the contact-name
fallback chain reads; each may be absent or empty (JS-falsy). -/
structure Contact where
  pushname : Option String
  name : Option String
  number : Option String
deriving DecidableEq, Repr

/-- The normalised JSON payload built by `buildMessagePayload`. -/
structure MessagePayload where
  id : String
  «from» : String
  «to» : String
  body : String
  type : String
  timestamp : Nat
  from_me : Bool
  is_group : Bool
  contact_name : String
  has_media : Bool
  has_quoted : Bool
deriving DecidableEq, Repr

/-- The fallback chain
`contact.pushname || contact.name || contact.number || msg.from`,
with `contact = none` modelling `msg.getContact()` having thrown
(the `catch (_) {}` keeps the initial `contact_name = msg.from`). -/
def resolveContactName (m : WaMessage) (c : Option Contact) : String :=
  match c with
  | none => m.«from»
  | some c =>
    if truthy c.pushname then c.pushname.getD ""
    else if truthy c.name then c.name.getD ""
    else if truthy c.number then c.number.getD ""
    else m.«from»

/-- `buildMessagePayload(msg)` from `server.js`; the contact argument is the
result of the awaited `msg.getContact()` call. -/
def buildMessagePayload (m : WaMessage) (c : Option Contact) : MessagePayload :=
  { id := m.id
    «from» := m.«from»
    «to» := m.«to»
    body := m.body
    type := m.type
    timestamp := m.timestamp
    from_me := m.fromMe
    is_group := endsWithStr m.«from» "@g.us"
    contact_name := resolveContactName m c
    has_media := m.hasMedia
    has_quoted := m.hasQuotedMsg }

-- ── WebSocket frames ─────────────────────────────────────────────────────────

/-- The JSON frames pushed over the WebSocket, kept structured
(`JSON.stringify` is injective on these shapes, so tracking the structured
payload is equivalent to tracking the serialised string). -/
inductive WsMsg
  | status (s : ClientStatus)
  | qr (qr_data_url : String)
  | authenticated
  | auth_failure (message : String)
  | ready
  | disconnected (reason : String)
  | message (p : MessagePayload)
  | message_sent (p : MessagePayload)
  | message_ack (message_id : String) (ack : Int)
  | state_change (state : String)
deriving DecidableEq, Repr

-- ── Lifecycle callbacks from createClient ────────────────────────────────────

/-- The lifecycle signals delivered by the wrapped client to the handlers
registered in `createClient`. `qr` carries the already-encoded data URL
(the result of `qrcode.toDataURL`); `initFailed` is the rejection of the
`waClient.initialize()` promise, handled by the attached `.catch`. -/
inductive LifecycleEvent
  | qr (dataUrl : String)
  | authenticated
  | auth_failure (msg : String)
  | ready
  | disconnected (reason : String)
  | initFailed (errMessage : String)
deriving DecidableEq, Repr

/-- Outcome of one lifecycle handler: the updated session globals, the
frames it broadcast, and whether it scheduled the 5-second reconnect
timer (`setTimeout(() => createClient(), 5000)`). -/
structure LifecycleResult where
  state : SessionState
  broadcasts : List WsMsg
  reconnectScheduled : Bool
deriving DecidableEq, Repr

/-- The bodies of the handlers registered in `createClient`, transcribed
case by case:
* `qr`: set `QR_READY`, store the data URL, broadcast a `qr` frame;
* `authenticated`: set `AUTHENTICATED`, null the stored QR, broadcast;
* `auth_failure`: set `AUTH_FAILURE`, broadcast with the reason;
* `ready`: set `READY`, broadcast (the QR global is not touched);
* `disconnected`: set `DISCONNECTED`, broadcast with the reason, schedule
  the reconnect timer (the QR global is not touched);
* `initFailed` (the `.catch` on `initialize()`): log and set
  `DISCONNECTED`; nothing is broadcast and no timer is scheduled.
Totality of this function models that every handler catches its errors:
no lifecycle signal ever raises out of the coordinator. -/
def lifecycleStep (st : SessionState) : LifecycleEvent → LifecycleResult
  | .qr d =>
    { state := { currentQrDataUrl := some d, clientStatus := .QR_READY }
      broadcasts := [.qr d]
      reconnectScheduled := false }
  | .authenticated =>
    { state := { currentQrDataUrl := none, clientStatus := .AUTHENTICATED }
      broadcasts := [.authenticated]
      reconnectScheduled := false }
  | .auth_failure m =>
    { state := { st with clientStatus := .AUTH_FAILURE }
      broadcasts := [.auth_failure m]
      reconnectScheduled := false }
  | .ready =>
    { state := { st with clientStatus := .READY }
      broadcasts := [.ready]
      reconnectScheduled := false }
  | .disconnected r =>
    { state := { st with clientStatus := .DISCONNECTED }
      broadcasts := [.disconnected r]
      reconnectScheduled := true }
  | .initFailed _ =>
    { state := { st with clientStatus := .DISCONNECTED }
      broadcasts := []
      reconnectScheduled := false }

-- ── WebSocket subscriber set and broadcast ───────────────────────────────────

/-- A WebSocket connection handle: identity (`id`, standing for JS object
identity in the `Set`) and its `readyState`
(0 CONNECTING, 1 OPEN, 2 CLOSING, 3 CLOSED). -/
structure WsConn where
  id : Nat
  readyState : Nat
deriving DecidableEq, Repr

/-- A frame written to one connection. -/
structure Send where
  connId : Nat
  msg : WsMsg
deriving DecidableEq, Repr

/-- `ws.send(msg)`: the underlying socket write, which can fail (raise)
when the connection is not OPEN. `broadcast` must guard against this. -/
def wsSend (ws : WsConn) (m : WsMsg) : Except String Send :=
  if ws.readyState = 1 then .ok ⟨ws.id, m⟩
  else .error "WebSocket is not open"

/-- The loop body of `broadcast`: iterate the subscriber set, sending only
to connections whose `readyState === 1` (OPEN), exactly as the source's
`if (ws.readyState === 1) ws.send(msg);`. -/
def broadcastGo (m : WsMsg) : List WsConn → Except String (List Send)
  | [] => .ok []
  | ws :: rest =>
    if ws.readyState = 1 then
      match wsSend ws m with
      | .error e => .error e
      | .ok s =>
        match broadcastGo m rest with
        | .error e => .error e
        | .ok tail => .ok (s :: tail)
    else broadcastGo m rest

/-- `broadcast(payload)` from `server.js`: serialise once and attempt
delivery to every registered connection. Returns the subscriber set after
the call together with the frames actually written; `.error` would model
an exception escaping to the caller. The source never mutates `wsClients`
inside `broadcast`, so the returned set is the input set. -/
def broadcast (clients : List WsConn) (m : WsMsg) :
    Except String (List WsConn × List Send) :=
  (broadcastGo m clients).map (fun sends => (clients, sends))

/-- The frames `broadcast` writes, as a pure function: one frame per OPEN
connection, in set-iteration order. -/
def broadcastSends (clients : List WsConn) (m : WsMsg) : List Send :=
  clients.filterMap fun ws =>
    if ws.readyState = 1 then some ⟨ws.id, m⟩ else none

/-- `wsClients.add(ws)` — JS `Set.add`: no-op when the same handle is
already a member. -/
def jsSetAdd (clients : List WsConn) (ws : WsConn) : List WsConn :=
  if clients.any (fun w => w.id = ws.id) then clients else clients ++ [ws]

/-- `wsClients.delete(ws)` — used by both the `close` and the `error`
handler of a registered connection. -/
def jsSetDelete (clients : List WsConn) (cid : Nat) : List WsConn :=
  clients.filter fun w => w.id ≠ cid

-- ── The server's event loop (connection handler + lifecycle fan-out) ─────────

/-- Full server state: the session globals plus the subscriber set. -/
structure ServerState where
  session : SessionState
  wsClients : List WsConn
deriving DecidableEq, Repr

/-- One event processed by the single-threaded event loop. -/
inductive ServerEvent
  | wsConnect (ws : WsConn) (token : Option String)
  | wsClose (connId : Nat)
  | wsError (connId : Nat)
  | lifecycle (e : LifecycleEvent)
  | waMessage (m : WaMessage) (c : Option Contact)
  | waMessageCreate (m : WaMessage) (c : Option Contact)
  | waMessageAck (messageId : String) (ack : Int)
  | waChangeState (state : String)
deriving DecidableEq, Repr

/-- The `wss.on("connection")` handler: authenticate the `?token=` query
parameter (absent ⇒ `null` ⇒ mismatch ⇒ `ws.close(4001)` and no
registration); on success add the connection to the set and immediately
write it one `status` frame carrying the current `clientStatus`. -/
def onConnection (apiToken : String) (st : ServerState) (ws : WsConn)
    (token : Option String) : ServerState × List Send :=
  if token ≠ some apiToken then (st, [])
  else
    ({ st with wsClients := jsSetAdd st.wsClients ws },
     [⟨ws.id, .status st.session.clientStatus⟩])

/-- One step of the event loop. Lifecycle handlers update the session
globals and fan their frames out through `broadcast` (shown pure by
`broadcast_eq_ok`); the message handlers fan out the normalised payloads
(`message_create` only for `msg.fromMe`); `close`/`error` delete the
connection from the set. -/
def serverStep (apiToken : String) (st : ServerState) :
    ServerEvent → ServerState × List Send
  | .wsConnect ws tok => onConnection apiToken st ws tok
  | .wsClose cid => ({ st with wsClients := jsSetDelete st.wsClients cid }, [])
  | .wsError cid => ({ st with wsClients := jsSetDelete st.wsClients cid }, [])
  | .lifecycle e =>
    let r := lifecycleStep st.session e
    ({ st with session := r.state },
     r.broadcasts.flatMap (broadcastSends st.wsClients))
  | .waMessage m c =>
    (st, broadcastSends st.wsClients (.message (buildMessagePayload m c)))
  | .waMessageCreate m c =>
    if m.fromMe then
      (st, broadcastSends st.wsClients (.message_sent (buildMessagePayload m c)))
    else (st, [])
  | .waMessageAck mid ack =>
    (st, broadcastSends st.wsClients (.message_ack mid ack))
  | .waChangeState s =>
    (st, broadcastSends st.wsClients (.state_change s))

/-- Run the event loop over a list of events, collecting all frames
written, in order. -/
def runServer (apiToken : String) (st : ServerState) :
    List ServerEvent → ServerState × List Send
  | [] => (st, [])
  | ev :: rest =>
    let r := serverStep apiToken st ev
    let rest' := runServer apiToken r.1 rest
    (rest'.1, r.2 ++ rest'.2)

/-- The frames a given connection handle received, in order. -/
def receivedBy (cid : Nat) (sends : List Send) : List WsMsg :=
  (sends.filter fun s => s.connId = cid).map Send.msg

/-- Whether a frame is a `status` frame (the frame synthesised at
registration time; no other code path emits it). -/
def isStatusMsg : WsMsg → Bool
  | .status _ => true
  | _ => false

-- ── REST route handlers ──────────────────────────────────────────────────────

/-- `API_TOKEN = cfg.api_token || "change_me_to_a_random_secret"`:
a falsy configured value (absent or empty) falls back to the default. -/
def apiTokenOf (cfgToken : Option String) : String :=
  if truthy cfgToken then cfgToken.getD "" else "change_me_to_a_random_secret"

/-- `header.replace(/^Bearer\s+/i, "")`: case-insensitively match
`Bearer` followed by at least one whitespace character at the start and
drop the (greedy, maximal) match; return the input unchanged when the
regex does not match. -/
def stripBearer (cs : List Char) : List Char :=
  match cs with
  | b :: e :: a :: r :: e2 :: r2 :: rest =>
    if b.toLower = 'b' ∧ e.toLower = 'e' ∧ a.toLower = 'a' ∧
       r.toLower = 'r' ∧ e2.toLower = 'e' ∧ r2.toLower = 'r' then
      match rest with
      | c :: _ => if jsWhitespace c then rest.dropWhile jsWhitespace else cs
      | [] => cs
    else cs
  | _ => cs

/-- The token the middleware compares:
`(req.headers["authorization"] || "").replace(/^Bearer\s+/i, "").trim()`. -/
def extractToken (header : String) : String :=
  String.mk (trimChars (stripBearer header.data))

/-- Outcome of the `auth` middleware. -/
inductive AuthResult
  | unauthorized
  | next
deriving DecidableEq, Repr

/-- The `auth` bearer-token middleware: a missing header is coalesced to
`""`; mismatch returns 401 before the route handler runs, match calls
`next()`. -/
def auth (apiToken : String) (header : Option String) : AuthResult :=
  if extractToken (header.getD "") ≠ apiToken then .unauthorized else .next

/-- The three responses of `GET /api/qr`. -/
inductive QrResp
  | alreadyAuthenticated
  | waitingForQr (status : ClientStatus)
  | qrPage (dataUrl : String)
deriving DecidableEq, Repr

/-- The `GET /api/qr` handler body: READY/AUTHENTICATED short-circuit to
the "already authenticated" page before the stored QR is consulted;
otherwise a falsy `currentQrDataUrl` yields the waiting page and a
truthy one the QR page. -/
def apiQr (st : SessionState) : QrResp :=
  if st.clientStatus = .READY ∨ st.clientStatus = .AUTHENTICATED then
    .alreadyAuthenticated
  else if ¬ truthy st.currentQrDataUrl then .waitingForQr st.clientStatus
  else .qrPage (st.currentQrDataUrl.getD "")

/-- The request body of `POST /api/send`; each field may be absent. -/
structure SendBody where
  «to» : Option String
  message : Option String
  media_url : Option String
  media_filename : Option String
deriving DecidableEq, Repr

/-- `const chatId = to.includes("@") ? to : to.replace(/\D/g, "") + "@c.us"`. -/
def normalizeChatId (dest : String) : String :=
  if includesChar dest '@' then dest
  else String.mk (keepDigits dest.data) ++ "@c.us"

/-- What the `POST /api/send` handler decides before/at the point of
calling the external client: an early HTTP error, or the exact client
invocation it performs. -/
inductive SendOutcome
  | notReady (status : ClientStatus)
  | missingTo
  | missingMessage
  | doSendMedia (chatId url : String) (filename caption : Option String)
  | doSendText (chatId text : String)
deriving DecidableEq, Repr

/-- The `POST /api/send` handler body, in source order: the `READY` gate
(503) runs first; then the `!to` check (400); then the chat-id
normalisation; a truthy `media_url` selects the media branch with
`caption: message || undefined`; otherwise a falsy `message` is the
validation error (400) and a truthy one the text send. -/
def apiSend (st : ClientStatus) (body : SendBody) : SendOutcome :=
  if st ≠ .READY then .notReady st
  else if ¬ truthy body.«to» then .missingTo
  else
    let chatId := normalizeChatId (body.«to».getD "")
    if truthy body.media_url then
      .doSendMedia chatId (body.media_url.getD "") body.media_filename
        (if truthy body.message then body.message else none)
    else if ¬ truthy body.message then .missingMessage
    else .doSendText chatId (body.message.getD "")

-- ── Helper lemmas ────────────────────────────────────────────────────────────

/-- Structure eta: rebuilding a string from its character list is the
identity. -/
theorem mk_data_eq (s : String) : String.mk s.data = s := rfl

/-- An absent value is JS-falsy. -/
theorem truthy_none : truthy none = false := rfl

/-- The guarded loop of `broadcast` never reaches a failing `wsSend`: it
returns exactly the frames for the OPEN connections. -/
theorem broadcastGo_eq (m : WsMsg) (clients : List WsConn) :
    broadcastGo m clients = Except.ok (broadcastSends clients m) := by
  induction clients with
  | nil => rfl
  | cons ws rest ih =>
    by_cases h : ws.readyState = 1
    · simp [broadcastGo, wsSend, h, ih, broadcastSends, List.filterMap_cons]
    · simp [broadcastGo, h, ih, broadcastSends, List.filterMap_cons]

/-- `broadcast` as a pure function: it always succeeds, returns the
subscriber set unchanged, and writes `broadcastSends`. -/
theorem broadcast_eq (clients : List WsConn) (m : WsMsg) :
    broadcast clients m = Except.ok (clients, broadcastSends clients m) := by
  simp [broadcast, broadcastGo_eq, Except.map]

/-- Characterisation of the frames `broadcast` writes: exactly one frame
per OPEN member of the set, carrying the broadcast payload. -/
theorem mem_broadcastSends (clients : List WsConn) (m : WsMsg) (s : Send) :
    s ∈ broadcastSends clients m ↔
      ∃ ws ∈ clients, ws.readyState = 1 ∧ s = ⟨ws.id, m⟩ := by
  simp only [broadcastSends, List.mem_filterMap]
  constructor
  · rintro ⟨ws, hws, hf⟩
    by_cases h : ws.readyState = 1
    · rw [if_pos h] at hf
      injection hf with hf
      exact ⟨ws, hws, h, hf.symm⟩
    · simp [h] at hf
  · rintro ⟨ws, hws, h1, rfl⟩
    exact ⟨ws, hws, by simp [h1]⟩

/-- No lifecycle handler ever broadcasts a `status` frame; that frame is
synthesised only by the connection handler. -/
theorem lifecycle_broadcasts_not_status (st : SessionState) (e : LifecycleEvent) :
    ∀ m ∈ (lifecycleStep st e).broadcasts, isStatusMsg m = false := by
  cases e <;> simp [lifecycleStep, isStatusMsg]

/-- Running the event loop over a concatenation splits into the two runs,
with the written frames concatenated. -/
theorem runServer_append (tok : String) (st : ServerState) (xs ys : List ServerEvent) :
    runServer tok st (xs ++ ys) =
      ((runServer tok (runServer tok st xs).1 ys).1,
       (runServer tok st xs).2 ++ (runServer tok (runServer tok st xs).1 ys).2) := by
  induction xs generalizing st with
  | nil => simp [runServer]
  | cons e rest ih =>
    simp only [List.cons_append, runServer, List.append_eq]
    rw [ih]
    simp [List.append_assoc]

/-- `receivedBy` distributes over frame concatenation. -/
theorem receivedBy_append (cid : Nat) (a b : List Send) :
    receivedBy cid (a ++ b) = receivedBy cid a ++ receivedBy cid b := by
  simp [receivedBy]

/-- If no connection with a given id is ever registered during a run,
every frame that run writes to that id is a non-`status` frame. -/
theorem runServer_no_status_to (tok : String) (cid : Nat) :
    ∀ (events : List ServerEvent) (st : ServerState),
      (∀ ws t, ServerEvent.wsConnect ws t ∈ events → ws.id ≠ cid) →
      ∀ s ∈ (runServer tok st events).2, s.connId = cid → isStatusMsg s.msg = false := by
  intro events
  induction events with
  | nil =>
    intro st _ s hs
    simp [runServer] at hs
  | cons ev rest ih =>
    intro st h s hs hcid
    simp only [runServer, List.mem_append] at hs
    rcases hs with hstep | hrest
    · cases ev with
      | wsConnect ws t =>
        have hne : ws.id ≠ cid := h ws t (List.mem_cons_self _ _)
        simp only [serverStep, onConnection] at hstep
        by_cases htok : t ≠ some tok
        · simp [htok] at hstep
        · simp only [htok, if_neg, if_false] at hstep
          simp at hstep
          rw [hstep] at hcid
          exact absurd hcid hne
      | wsClose cid' => simp [serverStep] at hstep
      | wsError cid' => simp [serverStep] at hstep
      | lifecycle e =>
        simp only [serverStep, List.mem_flatMap] at hstep
        obtain ⟨m, hm, hsm⟩ := hstep
        obtain ⟨ws, _, _, rfl⟩ := (mem_broadcastSends _ _ _).mp hsm
        exact lifecycle_broadcasts_not_status st.session e m hm
      | waMessage m c =>
        simp only [serverStep] at hstep
        obtain ⟨ws, _, _, rfl⟩ := (mem_broadcastSends _ _ _).mp hstep
        rfl
      | waMessageCreate m c =>
        simp only [serverStep] at hstep
        by_cases hfm : m.fromMe
        · simp only [hfm, if_pos] at hstep
          obtain ⟨ws, _, _, rfl⟩ := (mem_broadcastSends _ _ _).mp hstep
          rfl
        · simp [hfm] at hstep
      | waMessageAck mid ack =>
        simp only [serverStep] at hstep
        obtain ⟨ws, _, _, rfl⟩ := (mem_broadcastSends _ _ _).mp hstep
        rfl
      | waChangeState s' =>
        simp only [serverStep] at hstep
        obtain ⟨ws, _, _, rfl⟩ := (mem_broadcastSends _ _ _).mp hstep
        rfl
    · exact ih (serverStep tok st ev).1
        (fun ws t hm => h ws t (List.mem_cons_of_mem _ hm)) s hrest hcid

-- ── Claim theorems ───────────────────────────────────────────────────────────

/-- C1 (counterexample): with the subscriber set holding one CLOSED
connection (readyState 3), `broadcast` returns successfully but the stale
connection is still a member of the returned set — it is not removed as a
side effect of the call, contrary to the claim. -/
theorem c1_counterexample :
    broadcast [⟨0, 3⟩] .ready = Except.ok ([⟨0, 3⟩], []) ∧
    (⟨0, 3⟩ : WsConn) ∈ ([⟨0, 3⟩] : List WsConn) := by
  exact ⟨rfl, List.mem_singleton.mpr rfl⟩

/-- C1 (amended): for every payload and every subscriber set — stale and
closed connections included — `broadcast` never raises to its caller: a
`readyState === 1` guard skips every non-open connection, and only OPEN
connections are written to. But the skipped stale connections are NOT
removed: the subscriber set is returned unchanged (removal happens only
in the per-connection `close`/`error` handlers). -/
theorem c1_publish_never_raises (clients : List WsConn) (m : WsMsg) :
    broadcast clients m = Except.ok (clients, broadcastSends clients m) ∧
    ∀ s ∈ broadcastSends clients m,
      ∃ ws ∈ clients, ws.readyState = 1 ∧ s = ⟨ws.id, m⟩ := by
  exact ⟨broadcast_eq clients m, fun s hs => (mem_broadcastSends clients m s).mp hs⟩

/-- Witness for C1 (amended) on a mixed set — one OPEN and one CLOSED
connection: the call succeeds, returns the set unchanged, writes only to
the OPEN connection, and that frame is accounted for by an OPEN member. -/
theorem c1_witness :
    broadcast [⟨0, 1⟩, ⟨1, 3⟩] .authenticated
      = Except.ok ([⟨0, 1⟩, ⟨1, 3⟩], [⟨0, .authenticated⟩]) ∧
    ∃ ws ∈ ([⟨0, 1⟩, ⟨1, 3⟩] : List WsConn),
      ws.readyState = 1 ∧ (⟨0, .authenticated⟩ : Send) = ⟨ws.id, .authenticated⟩ :=
  ⟨(c1_publish_never_raises [⟨0, 1⟩, ⟨1, 3⟩] .authenticated).1,
   (c1_publish_never_raises [⟨0, 1⟩, ⟨1, 3⟩] .authenticated).2
     ⟨0, .authenticated⟩ (by decide)⟩

/-- C2 (counterexample): from a `QR_READY` state holding a QR image, the
`disconnected` handler moves to `DISCONNECTED` and the `ready` handler to
`READY`, but neither clears the stored QR data URL — contrary to the
claim that the transitions to READY and to DISCONNECTED set it to null. -/
theorem c2_counterexample :
    (lifecycleStep ⟨some "data:image/png;base64,Q", .QR_READY⟩
        (.disconnected "NAVIGATION")).state.currentQrDataUrl ≠ none ∧
    (lifecycleStep ⟨some "data:image/png;base64,Q", .QR_READY⟩
        (.disconnected "NAVIGATION")).state.clientStatus = .DISCONNECTED ∧
    (lifecycleStep ⟨some "data:image/png;base64,Q", .QR_READY⟩
        .ready).state.currentQrDataUrl ≠ none ∧
    (lifecycleStep ⟨some "data:image/png;base64,Q", .QR_READY⟩
        .ready).state.clientStatus = .READY := by
  refine ⟨by decide, rfl, by decide, rfl⟩

/-- C2 (amended): only the transition to AUTHENTICATED sets the stored
pairing artifact to null; the transitions to READY and to DISCONNECTED
leave it unchanged, so the artifact can remain non-null outside
`QR_READY` (e.g. after a disconnect straight from `QR_READY`). -/
theorem c2_qr_cleared_only_on_authenticated (st : SessionState) (r : String) :
    (lifecycleStep st .authenticated).state.currentQrDataUrl = none ∧
    (lifecycleStep st .ready).state.currentQrDataUrl = st.currentQrDataUrl ∧
    (lifecycleStep st (.disconnected r)).state.currentQrDataUrl = st.currentQrDataUrl :=
  ⟨rfl, rfl, rfl⟩

/-- C3 (counterexample): when the `initialize()` promise rejects, the
attached `.catch` sets the status to DISCONNECTED but schedules no
reconnect attempt, while the `disconnected` signal handler does schedule
one — contrary to the claim that an initialization failure is recovered
"just as after a disconnect signal". -/
theorem c3_counterexample :
    (lifecycleStep ⟨none, .INITIALIZING⟩ (.initFailed "boom")).reconnectScheduled = false ∧
    (lifecycleStep ⟨none, .INITIALIZING⟩ (.initFailed "boom")).state.clientStatus = .DISCONNECTED ∧
    (lifecycleStep ⟨none, .INITIALIZING⟩ (.disconnected "NAVIGATION")).reconnectScheduled = true :=
  ⟨rfl, rfl, rfl⟩

/-- C3 (amended): a rejected `initialize()` is not fatal — the `.catch`
handler absorbs it, setting the status to DISCONNECTED and broadcasting
nothing — but no reconnect attempt is scheduled for it; the 5-second
reconnect timer is started only by the client's `disconnected` signal. -/
theorem c3_init_failure_not_fatal_no_reconnect (st : SessionState) (e r : String) :
    (lifecycleStep st (.initFailed e)).state.clientStatus = .DISCONNECTED ∧
    (lifecycleStep st (.initFailed e)).broadcasts = [] ∧
    (lifecycleStep st (.initFailed e)).reconnectScheduled = false ∧
    (lifecycleStep st (.disconnected r)).reconnectScheduled = true :=
  ⟨rfl, rfl, rfl, rfl⟩

/-- C5: destination normalisation of `POST /api/send` — a bare number
gains the `@c.us` suffix after digit-stripping, an already-suffixed
identifier passes through unchanged, and in general a destination with an
`@` is used as-is while one without is stripped to its digits and
suffixed with `@c.us`. -/
theorem c5_normalize_chat_id :
    normalizeChatId "15551234567" = "15551234567@c.us" ∧
    normalizeChatId "123@g.us" = "123@g.us" ∧
    (∀ dest : String, includesChar dest '@' = true → normalizeChatId dest = dest) ∧
    (∀ dest : String, includesChar dest '@' = false →
      normalizeChatId dest = String.mk (keepDigits dest.data) ++ "@c.us") := by
  refine ⟨by decide, by decide, ?_, ?_⟩
  · intro dest h
    simp [normalizeChatId, h]
  · intro dest h
    simp [normalizeChatId, h]

/-- Witness for C5 at concrete inputs, discharging both hypotheses. -/
theorem c5_witness :
    normalizeChatId "123@g.us" = "123@g.us" ∧
    normalizeChatId "+1 (555) 123-4567" =
      String.mk (keepDigits ("+1 (555) 123-4567").data) ++ "@c.us" :=
  ⟨c5_normalize_chat_id.2.2.1 "123@g.us" (by decide),
   c5_normalize_chat_id.2.2.2 "+1 (555) 123-4567" (by decide)⟩

/-- C6: whenever the status is anything other than READY, `POST
/api/send` answers the 503 not-ready error for every request body — the
handler returns before the body is validated and before the external
client could be invoked (the outcome is `notReady`, not a validation
error and not a `doSend`). -/
theorem c6_send_not_ready (st : ClientStatus) (body : SendBody) (h : st ≠ .READY) :
    apiSend st body = .notReady st := by
  simp [apiSend, h]

/-- Witness for C6: an invalid body (no destination, no message) in
status QR_READY still gets the not-ready error, not a validation error. -/
theorem c6_witness :
    apiSend .QR_READY ⟨none, none, none, none⟩ = .notReady .QR_READY :=
  c6_send_not_ready .QR_READY ⟨none, none, none, none⟩ (by decide)

/-- C7: in status READY with a destination supplied, a body missing both
`message` and `media_url` gets the 400 validation error — the outcome is
`missingMessage` and in particular no send reaches the external client. -/
theorem c7_send_missing_message (body : SendBody) (ht : truthy body.«to» = true)
    (hm : body.message = none) (hu : body.media_url = none) :
    apiSend .READY body = .missingMessage := by
  simp [apiSend, ht, hm, hu, truthy_none]

/-- Witness for C7 at a concrete body. -/
theorem c7_witness :
    apiSend .READY ⟨some "15551234567", none, none, none⟩ = .missingMessage :=
  c7_send_missing_message ⟨some "15551234567", none, none, none⟩
    (by decide) rfl rfl

/-- C8: `GET /api/qr` answers the "already authenticated" page whenever
the status is READY or AUTHENTICATED, whatever the stored QR value; the
QR-page and waiting-page branches are reachable only in the remaining
statuses. -/
theorem c8_qr_already_authenticated (st : SessionState) :
    ((st.clientStatus = .READY ∨ st.clientStatus = .AUTHENTICATED) →
      apiQr st = .alreadyAuthenticated) ∧
    (∀ d, apiQr st = .qrPage d →
      st.clientStatus ≠ .READY ∧ st.clientStatus ≠ .AUTHENTICATED) ∧
    (∀ s, apiQr st = .waitingForQr s →
      st.clientStatus ≠ .READY ∧ st.clientStatus ≠ .AUTHENTICATED) := by
  refine ⟨fun h => by simp [apiQr, h], ?_, ?_⟩
  · intro d hd
    by_cases h : st.clientStatus = .READY ∨ st.clientStatus = .AUTHENTICATED
    · simp [apiQr, h] at hd
    · exact ⟨fun hr => h (Or.inl hr), fun ha => h (Or.inr ha)⟩
  · intro s hs
    by_cases h : st.clientStatus = .READY ∨ st.clientStatus = .AUTHENTICATED
    · simp [apiQr, h] at hs
    · exact ⟨fun hr => h (Or.inl hr), fun ha => h (Or.inr ha)⟩

/-- Witness for C8: a stale stored QR with status READY still gets the
"already authenticated" response. -/
theorem c8_witness :
    apiQr ⟨some "data:image/png;base64,STALE", .READY⟩ = .alreadyAuthenticated :=
  (c8_qr_already_authenticated ⟨some "data:image/png;base64,STALE", .READY⟩).1
    (Or.inl rfl)

/-- C4: a subscriber whose connection is accepted with the correct token
receives, as the very first frame of everything it will ever receive,
exactly one `status` frame, and it carries the `clientStatus` current at
connect time; every later frame it receives is a non-`status` frame.
`hfresh` says the connection handle is new (nothing was addressed to its
id before it connected); `hpost` says the same handle does not reconnect
later in the run. -/
theorem c4_subscriber_gets_status_first (apiToken : String) (st0 : ServerState)
    (pre post : List ServerEvent) (ws : WsConn)
    (hfresh : ∀ s ∈ (runServer apiToken st0 pre).2, s.connId ≠ ws.id)
    (hpost : ∀ w t, ServerEvent.wsConnect w t ∈ post → w.id ≠ ws.id) :
    ∃ rest, receivedBy ws.id
        (runServer apiToken st0
          (pre ++ ServerEvent.wsConnect ws (some apiToken) :: post)).2
      = WsMsg.status (runServer apiToken st0 pre).1.session.clientStatus :: rest ∧
      ∀ m ∈ rest, isStatusMsg m = false := by
  have hsplit := runServer_append apiToken st0 pre
      (ServerEvent.wsConnect ws (some apiToken) :: post)
  have hstep : serverStep apiToken (runServer apiToken st0 pre).1
      (ServerEvent.wsConnect ws (some apiToken))
      = ({ (runServer apiToken st0 pre).1 with
            wsClients := jsSetAdd (runServer apiToken st0 pre).1.wsClients ws },
         [⟨ws.id, WsMsg.status (runServer apiToken st0 pre).1.session.clientStatus⟩]) := by
    simp [serverStep, onConnection]
  have hmidrun : runServer apiToken (runServer apiToken st0 pre).1
      (ServerEvent.wsConnect ws (some apiToken) :: post)
      = ((runServer apiToken
            ({ (runServer apiToken st0 pre).1 with
                wsClients := jsSetAdd (runServer apiToken st0 pre).1.wsClients ws }) post).1,
         ⟨ws.id, WsMsg.status (runServer apiToken st0 pre).1.session.clientStatus⟩ ::
           (runServer apiToken
            ({ (runServer apiToken st0 pre).1 with
                wsClients := jsSetAdd (runServer apiToken st0 pre).1.wsClients ws }) post).2) := by
    simp [runServer, hstep]
  have h1 : receivedBy ws.id (runServer apiToken st0 pre).2 = [] := by
    simp only [receivedBy, List.map_eq_nil_iff, List.filter_eq_nil_iff]
    intro s hs
    simpa using hfresh s hs
  refine ⟨receivedBy ws.id
      (runServer apiToken
        ({ (runServer apiToken st0 pre).1 with
            wsClients := jsSetAdd (runServer apiToken st0 pre).1.wsClients ws }) post).2,
    ?_, ?_⟩
  · rw [hsplit]
    rw [hmidrun]
    rw [receivedBy_append, h1]
    simp [receivedBy]
  · intro m hm
    simp only [receivedBy, List.mem_map, List.mem_filter] at hm
    obtain ⟨s, ⟨hs, hcid⟩, rfl⟩ := hm
    exact runServer_no_status_to apiToken ws.id post _ hpost s hs (by simpa using hcid)

/-- Witness for C4: from a disconnected start, an `authenticated` signal
arrives, then connection 7 registers with the right token, then a `ready`
signal arrives — connection 7's received frames start with exactly one
`status AUTHENTICATED` frame. -/
theorem c4_witness :
    ∃ rest, receivedBy 7 (runServer "t" ⟨⟨none, .DISCONNECTED⟩, []⟩
        ([ServerEvent.lifecycle .authenticated] ++
          ServerEvent.wsConnect ⟨7, 1⟩ (some "t") :: [ServerEvent.lifecycle .ready])).2
      = WsMsg.status (runServer "t" ⟨⟨none, .DISCONNECTED⟩, []⟩
          [ServerEvent.lifecycle .authenticated]).1.session.clientStatus :: rest ∧
      ∀ m ∈ rest, isStatusMsg m = false :=
  c4_subscriber_gets_status_first "t" ⟨⟨none, .DISCONNECTED⟩, []⟩
    [ServerEvent.lifecycle .authenticated] [ServerEvent.lifecycle .ready] ⟨7, 1⟩
    (by decide)
    (by intro w t h; simp at h)

/-- The configured token is never the empty string: a falsy configured
value falls back to the non-empty default secret. -/
theorem apiTokenOf_ne_empty (cfgToken : Option String) : apiTokenOf cfgToken ≠ "" := by
  cases cfgToken with
  | none => decide
  | some s =>
    by_cases h : s = ""
    · subst h; decide
    · simp [apiTokenOf, truthy, h]

/-- C9 (counterexample): with the configured token `" x"`, a request
presenting exactly that bare token — no `Bearer` scheme word anywhere —
is rejected with 401, because the middleware's trim step changes it; so
"a bare token without the Bearer scheme word is also accepted" fails as a
universal statement. -/
theorem c9_counterexample :
    auth " x" (some " x") = AuthResult.unauthorized ∧ extractToken " x" ≠ " x" := by
  decide

/-- C9 (amended): the check accepts iff the header, after
case-insensitively stripping one optional leading `Bearer`-plus-
whitespace prefix and trimming surrounding whitespace, equals the
configured token exactly; a missing header is rejected for every
configurable token (the configured token is never empty); and a bare
token without the scheme word is accepted provided the token itself is
unchanged by trimming and does not itself begin with a
`Bearer`-plus-whitespace prefix. -/
theorem c9_auth_amended (apiToken : String) (header : Option String) :
    (auth apiToken header = AuthResult.next ↔
      extractToken (header.getD "") = apiToken) ∧
    (∀ cfgToken, auth (apiTokenOf cfgToken) none = AuthResult.unauthorized) ∧
    (trimChars apiToken.data = apiToken.data →
      stripBearer apiToken.data = apiToken.data →
      auth apiToken (some apiToken) = AuthResult.next) := by
  refine ⟨?_, ?_, ?_⟩
  · by_cases h : extractToken (header.getD "") = apiToken
    · simp [auth, h]
    · simp [auth, h]
  · intro cfgToken
    have hne : extractToken ((none : Option String).getD "") ≠ apiTokenOf cfgToken := by
      intro hcontra
      exact apiTokenOf_ne_empty cfgToken hcontra.symm
    unfold auth
    rw [if_pos hne]
  · intro h1 h2
    have hx : extractToken apiToken = apiToken := by
      unfold extractToken
      rw [h2, h1, mk_data_eq]
    simp [auth, hx]

/-- Witness for C9: with token `"secret"`, the schemed header, the
missing header, and the bare-token header behave as amended. -/
theorem c9_witness :
    auth "secret" (some "Bearer secret") = AuthResult.next ∧
    auth "secret" none = AuthResult.unauthorized ∧
    auth "secret" (some "secret") = AuthResult.next := by
  refine ⟨?_, ?_, ?_⟩
  · exact (c9_auth_amended "secret" (some "Bearer secret")).1.mpr (by decide)
  · have h := (c9_auth_amended "secret" none).2.1 (some "secret")
    have hval : apiTokenOf (some "secret") = "secret" := by decide
    rwa [hval] at h
  · exact (c9_auth_amended "secret" (some "secret")).2.2 (by decide) (by decide)

/-- C10: the `is_group` flag of every normalised payload is computed
solely from the sender: it equals `msg.from.endsWith("@g.us")`, is
invariant under any change of the recipient field, and for a concrete
self-originated message (`from_me = true`) sent TO a group the flag is
false because the sender's own identifier is not a group id. -/
theorem c10_is_group_from_sender (m : WaMessage) (c : Option Contact) (t : String) :
    (buildMessagePayload m c).is_group = endsWithStr m.«from» "@g.us" ∧
    (buildMessagePayload { m with «to» := t } c).is_group
      = (buildMessagePayload m c).is_group ∧
    ((buildMessagePayload
        ⟨"id1", "15551234567@c.us", "123@g.us", "hi", "chat", 5, true, false, false⟩
        none).from_me = true ∧
     (buildMessagePayload
        ⟨"id1", "15551234567@c.us", "123@g.us", "hi", "chat", 5, true, false, false⟩
        none).is_group = false) :=
  ⟨rfl, rfl, rfl, by decide⟩

end Bridge
